import Mathlib

/-!
Shallow embedding of the ILDA binary codec from the ilda.rs repository.

Bytes are modelled as `Nat` values (each byte is a value below 256, tracked by
hypotheses where it matters); Rust `u16` values are `Nat` and `i16` values are
`Int`, with the `as u16` / `as i16` casts made explicit.  Rust `String` data is
modelled as the list of its bytes.  Fallible functions return `Except` values;
the one place where the Rust code can panic (slicing `&bytes[i .. i + end]`
beyond the end of the buffer in `parser::read_bytes`) is modelled by a
distinguished `RunResult.sliceOutOfRange` outcome.  The decode loop of
`parser::read_bytes` is embedded with explicit fuel so that it stays a
structurally recursive, kernel-computable function; `run_fuel_sufficient`
shows the fuel chosen by `read_bytes` can never run out.
-/

namespace Ilda

/-- Decidable equality for `Except` values, needed to settle concrete decoder
outputs by `decide`. -/
instance exceptDecEq {ε α : Type} [DecidableEq ε] [DecidableEq α] :
    DecidableEq (Except ε α) := fun a b =>
  match a, b with
  | .ok x, .ok y =>
    if h : x = y then .isTrue (by rw [h])
    else .isFalse (fun c => h (by injection c))
  | .error x, .error y =>
    if h : x = y then .isTrue (by rw [h])
    else .isFalse (fun c => h (by injection c))
  | .ok _, .error _ => .isFalse (fun c => Except.noConfusion c)
  | .error _, .ok _ => .isFalse (fun c => Except.noConfusion c)

/-- Errors of the library (src/error.rs, together with the two variants
`InvalidFile` and `InvalidFormat` that src/parser.rs constructs). -/
inductive IldaError where
  | fileTooSmall
  | invalidData
  | tooManyPoints (n : Nat)
  | tooManyFrames (n : Nat)
  | invalidHeader
  | noData
  | unsupported
  | invalidFile (reason : String)
  | invalidFormat
  deriving DecidableEq

/-- Size of an ILDA header section in bytes (src/data.rs). -/
def HEADER_SIZE : Nat := 32
/-- Size of an ILDA color palette data section in bytes. -/
def COLOR_PALETTE_SIZE : Nat := 3
/-- Size of an ILDA Indexed 2D point data section in bytes. -/
def INDEXED_2D_DATA_SIZE : Nat := 6
/-- Size of an ILDA Indexed 3D point data section in bytes. -/
def INDEXED_3D_DATA_SIZE : Nat := 8
/-- Size of an ILDA True Color 2D point data section in bytes. -/
def TRUE_COLOR_2D_DATA_SIZE : Nat := 8
/-- Size of an ILDA True Color 3D point data section in bytes. -/
def TRUE_COLOR_3D_DATA_SIZE : Nat := 10
/-- The ILDA format magic; the bytes of "ILDA" in ASCII. -/
def ILDA_HEADER : List Nat := [73, 76, 68, 65]

/-- The payload encoding formats currently supported (src/data.rs `Format`). -/
inductive Format where
  | colorPalette
  | indexed2d
  | indexed3d
  | trueColor2d
  | trueColor3d
  deriving DecidableEq

/-- A raw ILDA header (src/data.rs `Header`; src/parser.rs calls it
`RawHeader`, with the same fields).  Name fields hold the bytes of the Rust
`String`. -/
structure Header where
  reserved : Nat
  format_code : Nat
  name : Option (List Nat)
  company_name : Option (List Nat)
  record_count : Nat
  number : Nat
  total_frames : Nat
  projector_number : Nat
  reserved_2 : Nat
  deriving DecidableEq

/-- Format-code dispatch used both by `Header::get_format` (src/data.rs) and by
the header arm of `parser::read_bytes`: codes 0, 1, 2, 4, 5 are recognized,
everything else is an unknown format. -/
def formatOfCode (code : Nat) : Option Format :=
  match code with
  | 0 => some .indexed3d
  | 1 => some .indexed2d
  | 2 => some .colorPalette
  | 4 => some .trueColor3d
  | 5 => some .trueColor2d
  | _ => none

/-- Returns the format of the header (src/data.rs `Header::get_format`),
failing with `InvalidHeader` on an unrecognized format code. -/
def Header.get_format (h : Header) : Except IldaError Format :=
  match formatOfCode h.format_code with
  | some f => .ok f
  | none => .error .invalidHeader

/-- The format code written for each format (src/data.rs `Header::new`). -/
def Format.code : Format → Nat
  | .indexed3d => 0
  | .indexed2d => 1
  | .colorPalette => 2
  | .trueColor3d => 4
  | .trueColor2d => 5

/-- Create a new Header (src/data.rs `Header::new`): both reserved fields are
set to zero and the format code is derived from the format. -/
def Header.new (format : Format) (name company_name : Option (List Nat))
    (record_count number total_frames projector_number : Nat) : Header :=
  { reserved := 0
    format_code := format.code
    name := name
    company_name := company_name
    record_count := record_count
    number := number
    total_frames := total_frames
    projector_number := projector_number
    reserved_2 := 0 }

/-- Status byte built from the blanking and last-point flags
(src/data.rs `build_status_code`). -/
def build_status_code (is_blank is_last : Bool) : Nat :=
  (if is_last then 1 <<< 7 else 0) ||| (if is_blank then 1 <<< 6 else 0)

/-- Big-endian u16 read (src/parser.rs and src/data.rs `read_u16`):
`((bytes[0] as u16) << 8) | (bytes[1] as u16)`. -/
def read_u16 (b0 b1 : Nat) : Nat :=
  (b0 <<< 8) ||| b1

/-- Reinterpretation of a u16 value as an i16 (the Rust `as i16` cast,
two's complement). -/
def as_i16 (v : Nat) : Int :=
  if v < 32768 then (v : Int) else (v : Int) - 65536

/-- Big-endian i16 read (src/parser.rs and src/data.rs `read_i16`):
the u16 read followed by the `as i16` cast. -/
def read_i16 (b0 b1 : Nat) : Int :=
  as_i16 (read_u16 b0 b1)

/-- The Rust `as u16` cast of an i16 value (two's complement). -/
def i16_as_u16 (x : Int) : Nat :=
  (x % 65536).toNat

/-- 3D coordinates with indexed color, format 0 (src/data.rs). -/
structure IndexedPoint3d where
  x : Int
  y : Int
  z : Int
  status_code : Nat
  color_index : Nat
  deriving DecidableEq

/-- 2D coordinates with indexed color, format 1 (src/data.rs). -/
structure IndexedPoint2d where
  x : Int
  y : Int
  status_code : Nat
  color_index : Nat
  deriving DecidableEq

/-- Color palette entry, format 2 (src/data.rs). -/
structure ColorPalette where
  r : Nat
  g : Nat
  b : Nat
  deriving DecidableEq

/-- 3D coordinates with true color, format 4 (src/data.rs). -/
structure TrueColorPoint3d where
  x : Int
  y : Int
  z : Int
  status_code : Nat
  b : Nat
  g : Nat
  r : Nat
  deriving DecidableEq

/-- 2D coordinates with true color, format 5 (src/data.rs). -/
structure TrueColorPoint2d where
  x : Int
  y : Int
  status_code : Nat
  b : Nat
  g : Nat
  r : Nat
  deriving DecidableEq

/-- Read multiple `IndexedPoint3d` from raw bytes
(src/data.rs `IndexedPoint3d::read_bytes`). -/
def IndexedPoint3d.read_bytes (bytes : List Nat) :
    Except IldaError (List IndexedPoint3d) :=
  if bytes.length % INDEXED_3D_DATA_SIZE ≠ 0 then
    .error .invalidData
  else
    .ok ((List.range (bytes.length / INDEXED_3D_DATA_SIZE)).map (fun i =>
      let j := i * INDEXED_3D_DATA_SIZE
      { x := read_i16 (bytes.getD j 0) (bytes.getD (j + 1) 0)
        y := read_i16 (bytes.getD (j + 2) 0) (bytes.getD (j + 3) 0)
        z := read_i16 (bytes.getD (j + 4) 0) (bytes.getD (j + 5) 0)
        status_code := bytes.getD (j + 6) 0
        color_index := bytes.getD (j + 7) 0 }))

/-- Whether the point is a blanking point
(src/data.rs `IndexedPoint3d::is_blank`). -/
def IndexedPoint3d.is_blank (p : IndexedPoint3d) : Bool :=
  p.status_code &&& 64 == 64

/-- Create a new IndexedPoint3d point (src/data.rs `IndexedPoint3d::new`). -/
def IndexedPoint3d.new (x y z : Int) (color_index : Nat)
    (is_last is_blank : Bool) : IndexedPoint3d :=
  { x := x, y := y, z := z
    status_code := build_status_code is_blank is_last
    color_index := color_index }

/-- Read multiple `IndexedPoint2d` from raw bytes
(src/data.rs `IndexedPoint2d::read_bytes`). -/
def IndexedPoint2d.read_bytes (bytes : List Nat) :
    Except IldaError (List IndexedPoint2d) :=
  if bytes.length % INDEXED_2D_DATA_SIZE ≠ 0 then
    .error .invalidData
  else
    .ok ((List.range (bytes.length / INDEXED_2D_DATA_SIZE)).map (fun i =>
      let j := i * INDEXED_2D_DATA_SIZE
      { x := read_i16 (bytes.getD j 0) (bytes.getD (j + 1) 0)
        y := read_i16 (bytes.getD (j + 2) 0) (bytes.getD (j + 3) 0)
        status_code := bytes.getD (j + 4) 0
        color_index := bytes.getD (j + 5) 0 }))

/-- Whether the point is a blanking point
(src/data.rs `IndexedPoint2d::is_blank`). -/
def IndexedPoint2d.is_blank (p : IndexedPoint2d) : Bool :=
  p.status_code &&& 64 == 64

/-- Create a new IndexedPoint2d point (src/data.rs `IndexedPoint2d::new`). -/
def IndexedPoint2d.new (x y : Int) (color_index : Nat)
    (is_last is_blank : Bool) : IndexedPoint2d :=
  { x := x, y := y
    status_code := build_status_code is_blank is_last
    color_index := color_index }

/-- Read multiple `ColorPalette` from raw bytes
(src/data.rs `ColorPalette::read_bytes`). -/
def ColorPalette.read_bytes (bytes : List Nat) :
    Except IldaError (List ColorPalette) :=
  if bytes.length % COLOR_PALETTE_SIZE ≠ 0 then
    .error .invalidData
  else
    .ok ((List.range (bytes.length / COLOR_PALETTE_SIZE)).map (fun i =>
      let j := i * COLOR_PALETTE_SIZE
      { r := bytes.getD j 0
        g := bytes.getD (j + 1) 0
        b := bytes.getD (j + 2) 0 }))

/-- Read multiple `TrueColorPoint3d` from raw bytes
(src/data.rs `TrueColorPoint3d::read_bytes`).  Note that the source reads the
color bytes at the absolute offsets 7, 8 and 9 of the whole slice
(`bytes[7]`, `bytes[8]`, `bytes[9]`), not at `j + 7`, `j + 8`, `j + 9`. -/
def TrueColorPoint3d.read_bytes (bytes : List Nat) :
    Except IldaError (List TrueColorPoint3d) :=
  if bytes.length % TRUE_COLOR_3D_DATA_SIZE ≠ 0 then
    .error .invalidData
  else
    .ok ((List.range (bytes.length / TRUE_COLOR_3D_DATA_SIZE)).map (fun i =>
      let j := i * TRUE_COLOR_3D_DATA_SIZE
      { x := read_i16 (bytes.getD j 0) (bytes.getD (j + 1) 0)
        y := read_i16 (bytes.getD (j + 2) 0) (bytes.getD (j + 3) 0)
        z := read_i16 (bytes.getD (j + 4) 0) (bytes.getD (j + 5) 0)
        status_code := bytes.getD (j + 6) 0
        b := bytes.getD 7 0
        g := bytes.getD 8 0
        r := bytes.getD 9 0 }))

/-- Whether the point is a blanking point
(src/data.rs `TrueColorPoint3d::is_blank`). -/
def TrueColorPoint3d.is_blank (p : TrueColorPoint3d) : Bool :=
  p.status_code &&& 64 == 64

/-- Create a new TrueColorPoint3d point (src/data.rs `TrueColorPoint3d::new`). -/
def TrueColorPoint3d.new (x y z : Int) (r g b : Nat)
    (is_last is_blank : Bool) : TrueColorPoint3d :=
  { x := x, y := y, z := z
    status_code := build_status_code is_blank is_last
    r := r, g := g, b := b }

/-- Read multiple `TrueColorPoint2d` from raw bytes
(src/data.rs `TrueColorPoint2d::read_bytes`). -/
def TrueColorPoint2d.read_bytes (bytes : List Nat) :
    Except IldaError (List TrueColorPoint2d) :=
  if bytes.length % TRUE_COLOR_2D_DATA_SIZE ≠ 0 then
    .error .invalidData
  else
    .ok ((List.range (bytes.length / TRUE_COLOR_2D_DATA_SIZE)).map (fun i =>
      let j := i * TRUE_COLOR_2D_DATA_SIZE
      { x := read_i16 (bytes.getD j 0) (bytes.getD (j + 1) 0)
        y := read_i16 (bytes.getD (j + 2) 0) (bytes.getD (j + 3) 0)
        status_code := bytes.getD (j + 4) 0
        b := bytes.getD (j + 5) 0
        g := bytes.getD (j + 6) 0
        r := bytes.getD (j + 7) 0 }))

/-- Whether the point is a blanking point
(src/data.rs `TrueColorPoint2d::is_blank`). -/
def TrueColorPoint2d.is_blank (p : TrueColorPoint2d) : Bool :=
  p.status_code &&& 64 == 64

/-- Create a new TrueColorPoint2d point (src/data.rs `TrueColorPoint2d::new`). -/
def TrueColorPoint2d.new (x y : Int) (r g b : Nat)
    (is_last is_blank : Bool) : TrueColorPoint2d :=
  { x := x, y := y
    status_code := build_status_code is_blank is_last
    r := r, g := g, b := b }

/-- ILDA header and data records (src/data.rs `IldaEntry`). -/
inductive IldaEntry where
  | headerEntry (h : Header)
  | tcPoint3dEntry (p : TrueColorPoint3d)
  | tcPoint2dEntry (p : TrueColorPoint2d)
  | colorPaletteEntry (c : ColorPalette)
  | idxPoint3dEntry (p : IndexedPoint3d)
  | idxPoint2dEntry (p : IndexedPoint2d)
  deriving DecidableEq

/-- Name decoding for the two 8-byte name fields of a header
(src/parser.rs `read_name`): stop at the first zero byte, skip unprintable
bytes below 31, and yield `none` when nothing remains. -/
def read_name_bytes : List Nat → List Nat
  | [] => []
  | b :: rest =>
    if b = 0 then []
    else if b < 31 then read_name_bytes rest
    else b :: read_name_bytes rest

/-- Name decoding wrapper (src/parser.rs `read_name`): an empty result decodes
to `none`. -/
def read_name (bytes : List Nat) : Option (List Nat) :=
  let name := read_name_bytes bytes
  if name.length = 0 then none else some name

/-- Decode a 32-byte header (src/parser.rs `read_header`): the input must be
exactly 32 bytes long and start with the ILDA magic; both reserved fields of
the result are set to zero, and the projector number is read from byte 31. -/
def read_header (header_bytes : List Nat) : Except IldaError Header :=
  if header_bytes.length ≠ 32 ∨ header_bytes.take 4 ≠ ILDA_HEADER then
    .error .invalidFormat
  else
    .ok
      { reserved := 0
        format_code := header_bytes.getD 7 0
        name := read_name ((header_bytes.drop 8).take 8)
        company_name := read_name ((header_bytes.drop 16).take 8)
        record_count := read_u16 (header_bytes.getD 24 0) (header_bytes.getD 25 0)
        number := read_u16 (header_bytes.getD 26 0) (header_bytes.getD 27 0)
        total_frames := read_u16 (header_bytes.getD 28 0) (header_bytes.getD 29 0)
        projector_number := header_bytes.getD 31 0
        reserved_2 := 0 }

/-- The state of the `next_read` variable in the loop of
`parser::read_bytes`. -/
inductive NextRead where
  | header
  | i3d
  | i2d
  | color
  | tc3d
  | tc2d
  deriving DecidableEq

/-- The `NextRead` state selected for each recognized format in the header arm
of `parser::read_bytes`. -/
def nextOfFormat : Format → NextRead
  | .indexed3d => .i3d
  | .indexed2d => .i2d
  | .colorPalette => .color
  | .trueColor3d => .tc3d
  | .trueColor2d => .tc2d

/-- Outcome of the decode loop of `parser::read_bytes`.  `sliceOutOfRange`
models the panic the Rust code hits when `&ilda_bytes[i .. i + end]` reaches
beyond the end of the buffer; `outOfFuel` is an artifact of the fuel-based
embedding and is never produced for the fuel `read_bytes` supplies
(`run_fuel_sufficient`). -/
inductive RunResult where
  | ok (entries : List IldaEntry)
  | err (e : IldaError)
  | sliceOutOfRange
  | outOfFuel
  deriving DecidableEq

/-- The loop of `parser::read_bytes`, recursing on the bytes not yet consumed
instead of moving the index `i`.  Each arm first checks whether the slice the
Rust code takes would be out of range (which in Rust is a panic), then mirrors
the corresponding `match next_read` arm of the source. -/
def run : Nat → List Nat → NextRead → Nat → RunResult
  | 0, bytes, _, _ =>
    if bytes = [] then .ok [] else .outOfFuel
  | fuel + 1, bytes, .header, frames =>
    if bytes = [] then .ok []
    else if bytes.length < HEADER_SIZE then .sliceOutOfRange
    else
      match read_header (bytes.take HEADER_SIZE) with
      | .error e => .err e
      | .ok header =>
        match formatOfCode header.format_code with
        | none => .err (.invalidFile "Bad format.")
        | some f =>
          match run fuel (bytes.drop HEADER_SIZE) (nextOfFormat f)
              header.record_count with
          | .ok entries => .ok (.headerEntry header :: entries)
          | r => r
  | fuel + 1, bytes, .i3d, frames =>
    if bytes = [] then .ok []
    else if bytes.length < INDEXED_3D_DATA_SIZE * frames then .sliceOutOfRange
    else
      match IndexedPoint3d.read_bytes
          (bytes.take (INDEXED_3D_DATA_SIZE * frames)) with
      | .error _ => .err .invalidFormat
      | .ok points =>
        match run fuel (bytes.drop (INDEXED_3D_DATA_SIZE * frames))
            .header frames with
        | .ok entries => .ok (points.map IldaEntry.idxPoint3dEntry ++ entries)
        | r => r
  | fuel + 1, bytes, .i2d, frames =>
    if bytes = [] then .ok []
    else if bytes.length < INDEXED_2D_DATA_SIZE * frames then .sliceOutOfRange
    else
      match IndexedPoint2d.read_bytes
          (bytes.take (INDEXED_2D_DATA_SIZE * frames)) with
      | .error _ => .err .invalidFormat
      | .ok points =>
        match run fuel (bytes.drop (INDEXED_2D_DATA_SIZE * frames))
            .header frames with
        | .ok entries => .ok (points.map IldaEntry.idxPoint2dEntry ++ entries)
        | r => r
  | fuel + 1, bytes, .color, frames =>
    if bytes = [] then .ok []
    else if bytes.length < COLOR_PALETTE_SIZE * frames then .sliceOutOfRange
    else
      match ColorPalette.read_bytes
          (bytes.take (COLOR_PALETTE_SIZE * frames)) with
      | .error _ => .err .invalidFormat
      | .ok points =>
        match run fuel (bytes.drop (COLOR_PALETTE_SIZE * frames))
            .header frames with
        | .ok entries => .ok (points.map IldaEntry.colorPaletteEntry ++ entries)
        | r => r
  | fuel + 1, bytes, .tc3d, frames =>
    if bytes = [] then .ok []
    else if bytes.length < TRUE_COLOR_3D_DATA_SIZE * frames then .sliceOutOfRange
    else
      match TrueColorPoint3d.read_bytes
          (bytes.take (TRUE_COLOR_3D_DATA_SIZE * frames)) with
      | .error _ => .err .invalidFormat
      | .ok points =>
        match run fuel (bytes.drop (TRUE_COLOR_3D_DATA_SIZE * frames))
            .header frames with
        | .ok entries => .ok (points.map IldaEntry.tcPoint3dEntry ++ entries)
        | r => r
  | fuel + 1, bytes, .tc2d, frames =>
    if bytes = [] then .ok []
    else if bytes.length < TRUE_COLOR_2D_DATA_SIZE * frames then .sliceOutOfRange
    else
      match TrueColorPoint2d.read_bytes
          (bytes.take (TRUE_COLOR_2D_DATA_SIZE * frames)) with
      | .error _ => .err .invalidFormat
      | .ok points =>
        match run fuel (bytes.drop (TRUE_COLOR_2D_DATA_SIZE * frames))
            .header frames with
        | .ok entries => .ok (points.map IldaEntry.tcPoint2dEntry ++ entries)
        | r => r

/-- Read ILDA data from raw bytes (src/parser.rs `read_bytes`): inputs shorter
than 32 bytes are rejected up front, then the decode loop runs starting in the
header state. -/
def read_bytes (ilda_bytes : List Nat) : RunResult :=
  if ilda_bytes.length < 32 then
    .err (.invalidFile "File too short.")
  else
    run (ilda_bytes.length + 2) ilda_bytes .header 0

/-- Big-endian u16 encoding (src/writer.rs `u16_be`):
`[(value >> 8) as u8, (value & 0xFF) as u8]`. -/
def u16_be (value : Nat) : List Nat :=
  [(value >>> 8) % 256, value &&& 0xFF]

/-- Fixed 8-byte name field encoding (src/writer.rs `str_8c`): truncate to at
most 8 bytes and pad with zeros; an unset name encodes as 8 zero bytes. -/
def str_8c (value : Option (List Nat)) : List Nat :=
  let bytes := value.getD []
  bytes.take 8 ++ List.replicate (8 - bytes.length) 0

/-- The bytes `IldaWriter::write` (src/writer.rs) emits for one entry. -/
def write_entry : IldaEntry → List Nat
  | .headerEntry header =>
    ILDA_HEADER ++ [0, 0, 0, header.format_code] ++
    str_8c header.name ++ str_8c header.company_name ++
    u16_be header.record_count ++ u16_be header.number ++
    u16_be header.total_frames ++ [header.projector_number] ++ [0]
  | .tcPoint3dEntry point =>
    u16_be (i16_as_u16 point.x) ++ u16_be (i16_as_u16 point.y) ++
    u16_be (i16_as_u16 point.z) ++
    [point.status_code] ++ [point.b] ++ [point.g] ++ [point.r]
  | .tcPoint2dEntry point =>
    u16_be (i16_as_u16 point.x) ++ u16_be (i16_as_u16 point.y) ++
    [point.status_code] ++ [point.b] ++ [point.g] ++ [point.r]
  | .colorPaletteEntry palette =>
    [palette.r] ++ [palette.g] ++ [palette.b]
  | .idxPoint3dEntry point =>
    u16_be (i16_as_u16 point.x) ++ u16_be (i16_as_u16 point.y) ++
    u16_be (i16_as_u16 point.z) ++
    [point.status_code] ++ [point.color_index]
  | .idxPoint2dEntry point =>
    u16_be (i16_as_u16 point.x) ++ u16_be (i16_as_u16 point.y) ++
    [point.status_code] ++ [point.color_index]

/-- Writer over a byte sink (src/writer.rs `IldaWriter`); the sink is the list
of bytes written so far. -/
structure IldaWriter where
  sink : List Nat
  deriving DecidableEq

/-- Write an IldaEntry to the underlying writer (src/writer.rs
`IldaWriter::write`). -/
def IldaWriter.write (w : IldaWriter) (entry : IldaEntry) : IldaWriter :=
  { sink := w.sink ++ write_entry entry }

/-- A point of the simplified animation model (src/point.rs `SimplePoint` as
used by src/animation.rs). -/
structure SimplePoint where
  x : Int
  y : Int
  r : Nat
  g : Nat
  b : Nat
  is_blank : Bool
  deriving DecidableEq

/-- A single frame of animation (src/animation.rs `Frame`). -/
structure Frame where
  points : List SimplePoint
  frame_name : Option (List Nat)
  company_name : Option (List Nat)
  deriving DecidableEq

/-- Streaming frame encoder (src/animation.rs `AnimationStreamWriter`). -/
structure AnimationStreamWriter where
  inner : IldaWriter
  finalized : Bool
  deriving DecidableEq

/-- Create a new AnimationStreamWriter instance
(src/animation.rs `AnimationStreamWriter::new`) over an empty sink. -/
def AnimationStreamWriter.new : AnimationStreamWriter :=
  { inner := { sink := [] }, finalized := false }

/-- Write a frame into the stream (src/animation.rs
`AnimationStreamWriter::write_frame_ext`).  Returns the updated writer
together with the error, if any; when the frame holds more than 65535 points
the call fails with `TooManyPoints` before anything is written. -/
def AnimationStreamWriter.write_frame_ext (w : AnimationStreamWriter)
    (frame : Frame) (number total_frames : Nat) :
    AnimationStreamWriter × Option IldaError :=
  let len := frame.points.length
  if len > 65535 then (w, some (.tooManyPoints len))
  else
    let header := Header.new .trueColor2d frame.frame_name frame.company_name
      len number total_frames 0
    let w1 : AnimationStreamWriter :=
      { w with inner := w.inner.write (.headerEntry header) }
    let w2 : AnimationStreamWriter :=
      { w1 with inner := frame.points.enum.foldl (fun acc ip =>
          acc.write (.tcPoint2dEntry
            (TrueColorPoint2d.new ip.2.x ip.2.y ip.2.r ip.2.g ip.2.b
              (ip.1 + 1 == len) ip.2.is_blank))) w1.inner }
    (w2, none)

/-- Write a frame with number and total set to zero (src/animation.rs
`AnimationStreamWriter::write_frame`). -/
def AnimationStreamWriter.write_frame (w : AnimationStreamWriter)
    (frame : Frame) : AnimationStreamWriter × Option IldaError :=
  w.write_frame_ext frame 0 0

/-- Write the terminal zero-record-count header (src/animation.rs
`AnimationStreamWriter::write_finishing_header`). -/
def AnimationStreamWriter.write_finishing_header
    (w : AnimationStreamWriter) : AnimationStreamWriter :=
  { w with inner :=
      w.inner.write (.headerEntry (Header.new .trueColor2d none none 0 0 0 0)) }

/-- Consume the writer and finish the ILDA stream (src/animation.rs
`AnimationStreamWriter::finalize`): mark the writer finalized, then write the
final header. -/
def AnimationStreamWriter.finalize (w : AnimationStreamWriter) :
    AnimationStreamWriter :=
  AnimationStreamWriter.write_finishing_header { w with finalized := true }

/-- The `Drop` implementation of `AnimationStreamWriter` (src/animation.rs):
write the finishing header exactly when the writer has not been finalized. -/
def AnimationStreamWriter.drop_writer (w : AnimationStreamWriter) :
    AnimationStreamWriter :=
  if w.finalized then w else AnimationStreamWriter.write_finishing_header w

/-- Header used to exhibit the failing round trip of claim C1: all fields are
zero or absent except a projector number of 1. -/
def c1Header : Header :=
  { reserved := 0
    format_code := 0
    name := none
    company_name := none
    record_count := 0
    number := 0
    total_frames := 0
    projector_number := 1
    reserved_2 := 0 }

/-- Input of claim C3: a valid 32-byte header announcing format 0 with
record_count = 1, followed by a single extra byte. -/
def c3Bytes : List Nat :=
  [73, 76, 68, 65, 0, 0, 0, 0] ++ List.replicate 16 0 ++
  [0, 1, 0, 0, 0, 0, 0, 0] ++ [0]

/-- Input of claim C4: two 10-byte true-color-3D records whose color triples
differ (first record b=1,g=2,r=3; second record b=4,g=5,r=6). -/
def c4Bytes : List Nat :=
  [0, 0, 0, 0, 0, 0, 0, 1, 2, 3] ++ [0, 0, 0, 0, 0, 0, 0, 4, 5, 6]

/-- Header value decoded from the all-zero-name format-5 header block, used to
witness claim C10. -/
def c10Header : Header :=
  { reserved := 0
    format_code := 5
    name := none
    company_name := none
    record_count := 0
    number := 0
    total_frames := 0
    projector_number := 0
    reserved_2 := 0 }

/-- Byte block used to witness claim C10. -/
def c10Bytes : List Nat :=
  [73, 76, 68, 65, 0, 0, 0, 5] ++ List.replicate 16 0 ++
  [0, 0, 0, 0, 0, 0, 0, 0]

/-- Point value used to build the oversized frame of the C8 witness. -/
def c8Point : SimplePoint :=
  { x := 0, y := 0, r := 0, g := 0, b := 0, is_blank := false }

/-- A frame with exactly 65536 points, witnessing claim C8. -/
def c8Frame : Frame :=
  { points := List.replicate 65536 c8Point
    frame_name := none
    company_name := none }

/-- One `write_frame_ext` call viewed as a state transition: the writer state
after the call, whether or not the call reported an error. -/
def apply_frame (w : AnimationStreamWriter) (op : Frame × Nat × Nat) :
    AnimationStreamWriter :=
  (w.write_frame_ext op.1 op.2.1 op.2.2).1

/-- The value range of a Rust i16, the type of all point coordinates. -/
abbrev i16_range (x : Int) : Prop := -32768 ≤ x ∧ x < 32768

/-- Concrete indexed-3D record for the C6 witness. -/
def c6P3 : IndexedPoint3d :=
  { x := -1, y := -32768, z := 32767, status_code := 255, color_index := 7 }

/-- Concrete indexed-2D record for the C6 witness. -/
def c6P2 : IndexedPoint2d :=
  { x := 300, y := -2, status_code := 64, color_index := 12 }

/-- Concrete color palette record for the C6 witness. -/
def c6C : ColorPalette := { r := 10, g := 20, b := 30 }

/-- Concrete true-color-2D record for the C6 witness. -/
def c6T2 : TrueColorPoint2d :=
  { x := -300, y := 5, status_code := 128, b := 1, g := 2, r := 3 }

/-- Concrete true-color-3D record for the C6 witness. -/
def c6T3 : TrueColorPoint3d :=
  { x := 1000, y := -1000, z := 17, status_code := 192, b := 9, g := 8, r := 7 }

/-- Fuel needed beyond the remaining byte count for each loop state. -/
def fuelBonus : NextRead → Nat
  | .header => 1
  | _ => 2

/-- Input of the C2 counterexample: a single 32-byte header whose format code
is 3 (unrecognized) and whose record count is 0. -/
def c2Bytes : List Nat :=
  [73, 76, 68, 65, 0, 0, 0, 3] ++ List.replicate 16 0 ++
  [0, 0, 0, 0, 0, 0, 0, 0]

/-- Format of the C2 witness header block. -/
def c2OkFormat : Format := .trueColor2d

/-- Input of the C2 witness: a single 32-byte header with recognized format
code 5 and record count 0 ending the input. -/
def c2OkBytes : List Nat :=
  [73, 76, 68, 65, 0, 0, 0, 5] ++ List.replicate 16 0 ++
  [0, 0, 0, 0, 0, 0, 0, 0]

/-! Arithmetic helper lemmas about the 16-bit byte codec. -/

/-- A value shifted left by 8 bits or-ed with a byte is their sum. -/
theorem mul256_lor_eq_add (x y : Nat) (hy : y < 256) :
    (x * 256) ||| y = x * 256 + y := by
  apply Nat.eq_of_testBit_eq
  intro i
  rw [Nat.testBit_lor]
  rcases Nat.lt_or_ge i 8 with hi | hi
  · have h1 : (x * 256).testBit i = false := by
      rw [show x * 256 = x <<< 8 by rw [Nat.shiftLeft_eq]]
      simp [Nat.testBit_shiftLeft, Nat.not_le.mpr hi]
    have h2 : (x * 256 + y) % 2 ^ 8 = y := by norm_num; omega
    have h3 := Nat.testBit_mod_two_pow (x * 256 + y) 8 i
    rw [h2] at h3
    simp [h1, h3, hi]
  · have h256 : (256 : Nat) ≤ 2 ^ i := by
      calc (256 : Nat) = 2 ^ 8 := by norm_num
      _ ≤ 2 ^ i := Nat.pow_le_pow_right (by norm_num) hi
    have h1 : y.testBit i = false := Nat.testBit_lt_two_pow (lt_of_lt_of_le hy h256)
    have h2 : (x * 256 + y) >>> 8 = x := by
      rw [Nat.shiftRight_eq_div_pow]; norm_num; omega
    have h3 := Nat.testBit_shiftRight (i := 8) (j := i - 8) (x * 256 + y)
    rw [h2] at h3
    have h4 : 8 + (i - 8) = i := by omega
    rw [h4] at h3
    have h5 : (x * 256).testBit i = x.testBit (i - 8) := by
      rw [show x * 256 = x <<< 8 by rw [Nat.shiftLeft_eq]]
      simp [Nat.testBit_shiftLeft, hi]
    rw [h1, h5, ← h3]
    simp

/-- Reading back the two bytes `u16_be` wrote recovers the u16 value. -/
theorem read_u16_u16_be (v : Nat) (hv : v < 65536) :
    read_u16 ((v >>> 8) % 256) (v &&& 0xFF) = v := by
  have hhi : (v >>> 8) % 256 = v / 256 := by
    rw [Nat.shiftRight_eq_div_pow]; norm_num; omega
  have hlo : v &&& 0xFF = v % 256 := Nat.and_pow_two_sub_one_eq_mod v 8
  rw [read_u16, hhi, hlo, Nat.shiftLeft_eq]
  norm_num
  rw [mul256_lor_eq_add _ _ (Nat.mod_lt v (by norm_num))]
  omega

/-- The `as u16` image of an i16 value is a u16 value. -/
theorem i16_as_u16_lt (x : Int) : i16_as_u16 x < 65536 := by
  rw [i16_as_u16]; omega

/-- Casting an in-range i16 value to u16 and back recovers the value. -/
theorem as_i16_i16_as_u16 (x : Int) (h1 : -32768 ≤ x) (h2 : x < 32768) :
    as_i16 (i16_as_u16 x) = x := by
  rw [as_i16, i16_as_u16]
  split <;> omega

/-- Reading back the two bytes written for an in-range i16 coordinate recovers
the coordinate. -/
theorem read_i16_roundtrip (x : Int) (h1 : -32768 ≤ x) (h2 : x < 32768) :
    read_i16 ((i16_as_u16 x >>> 8) % 256) (i16_as_u16 x &&& 0xFF) = x := by
  rw [read_i16, read_u16_u16_be _ (i16_as_u16_lt x), as_i16_i16_as_u16 x h1 h2]

/-! Claim C1: header round trip. -/

/-- C1: the claimed header round trip `decode_header(encode_header(h)) == h`
fails on the code: `IldaWriter::write` puts the projector number at byte 30
and writes 0 at byte 31, while `read_header` reads the projector number from
byte 31, so a header with projector_number = 1 decodes back with
projector_number = 0 (all other claimed fields survive). -/
theorem c1_roundtrip_drops_projector :
    read_header (write_entry (.headerEntry c1Header)) =
      .ok { c1Header with projector_number := 0 } ∧
    c1Header.projector_number = 1 := by
  decide

/-! Claim C3: the decoder can reach the out-of-range-slice failure. -/

/-- C3: contrary to the claim, `read_bytes` does reach the out-of-range-slice
failure: on a 33-byte input whose header asks for one 8-byte indexed-3D record,
the slice `&ilda_bytes[32 .. 40]` exceeds the buffer, which in the Rust source
is a panic rather than a returned error value. -/
theorem c3_slice_out_of_range :
    read_bytes c3Bytes = .sliceOutOfRange ∧ c3Bytes.length = 33 := by
  decide

/-! Claim C4: true-color-3D record colors. -/

/-- C4: contrary to the claim, `TrueColorPoint3d::read_bytes` reads the color
bytes of every record from the absolute offsets 7, 8 and 9 of the whole slice,
so the second decoded point carries the first record's colors (1,2,3) instead
of its own (4,5,6). -/
theorem c4_second_record_colors_wrong :
    (TrueColorPoint3d.read_bytes c4Bytes).toOption.map
        (List.map (fun p => (p.b, p.g, p.r))) =
      some [(1, 2, 3), (1, 2, 3)] := by
  decide

/-! Claim C5: decoding an empty byte source. -/

/-- C5 counterexample: decoding the empty byte source does not yield a clean
empty sequence; it fails with the invalid-file error "File too short.". -/
theorem c5_empty_input_is_error :
    read_bytes [] = .err (.invalidFile "File too short.") := by
  decide

/-- C5 (amended): every input shorter than 32 bytes, the empty input included,
makes `read_bytes` fail with the invalid-file error "File too short.". -/
theorem c5_short_input_is_error (b : List Nat) (h : b.length < 32) :
    read_bytes b = .err (.invalidFile "File too short.") := by
  rw [read_bytes, if_pos h]

/-- C5 witness: the amended theorem applied to the empty input. -/
theorem c5_short_input_is_error_witness :
    ([] : List Nat).length < 32 ∧
    read_bytes [] = .err (.invalidFile "File too short.") :=
  ⟨by decide, c5_short_input_is_error [] (by decide)⟩

/-! Claim C10: decoded headers have zero reserved fields. -/

/-- C10: every header `read_header` accepts comes back with both reserved
fields equal to zero, whatever the input bytes contained. -/
theorem c10_reserved_fields_zero (b : List Nat) (h : Header)
    (hok : read_header b = .ok h) : h.reserved = 0 ∧ h.reserved_2 = 0 := by
  rw [read_header] at hok
  split at hok
  · exact Except.noConfusion hok
  · cases hok
    exact ⟨rfl, rfl⟩

/-- C10 witness: the theorem applied to a concrete accepted header block. -/
theorem c10_reserved_fields_zero_witness :
    read_header c10Bytes = .ok c10Header ∧
    c10Header.reserved = 0 ∧ c10Header.reserved_2 = 0 :=
  ⟨by decide, c10_reserved_fields_zero c10Bytes c10Header (by decide)⟩

/-! Claim C7: the blanking bit. -/

/-- Masking with bit 6 yields 64 exactly when it yields a nonzero value. -/
theorem and64_eq_iff (n : Nat) : (n &&& 64 = 64) ↔ (n &&& 64 ≠ 0) := by
  have h := Nat.and_two_pow n 6
  norm_num at h
  rcases Bool.eq_false_or_eq_true (n.testBit 6) with hb | hb <;>
    rw [hb] at h <;> simp at h <;> omega

/-- C7: for all four point record types, `is_blank` is true exactly when
bit 6 (value 64) of the status code is set, independent of all other bits. -/
theorem c7_is_blank_iff_bit6 (p2 : IndexedPoint2d) (p3 : IndexedPoint3d)
    (t2 : TrueColorPoint2d) (t3 : TrueColorPoint3d) :
    (p2.is_blank = true ↔ p2.status_code &&& 64 ≠ 0) ∧
    (p3.is_blank = true ↔ p3.status_code &&& 64 ≠ 0) ∧
    (t2.is_blank = true ↔ t2.status_code &&& 64 ≠ 0) ∧
    (t3.is_blank = true ↔ t3.status_code &&& 64 ≠ 0) := by
  refine ⟨?_, ?_, ?_, ?_⟩
  · rw [IndexedPoint2d.is_blank, beq_iff_eq]
    exact and64_eq_iff _
  · rw [IndexedPoint3d.is_blank, beq_iff_eq]
    exact and64_eq_iff _
  · rw [TrueColorPoint2d.is_blank, beq_iff_eq]
    exact and64_eq_iff _
  · rw [TrueColorPoint3d.is_blank, beq_iff_eq]
    exact and64_eq_iff _

/-! Claim C8: oversized frames are rejected by the stream encoder. -/

/-- C8: a frame holding more than 65535 points makes `write_frame_ext` fail
with `TooManyPoints` carrying the offending length; the writer state, its byte
sink included, is returned unchanged, so no header is written and no 16-bit
count is truncated or wrapped. -/
theorem c8_too_many_points (w : AnimationStreamWriter) (frame : Frame)
    (number total_frames : Nat) (h : frame.points.length > 65535) :
    w.write_frame_ext frame number total_frames =
      (w, some (.tooManyPoints frame.points.length)) := by
  rw [AnimationStreamWriter.write_frame_ext]
  simp only [h, if_pos]

/-- The length of the C8 witness frame. -/
theorem c8Frame_points_length : c8Frame.points.length = 65536 :=
  List.length_replicate 65536 c8Point

/-- C8 witness: the theorem applied to a fresh writer and a frame of 65536
points. -/
theorem c8_too_many_points_witness :
    c8Frame.points.length > 65535 ∧
    AnimationStreamWriter.new.write_frame_ext c8Frame 0 0 =
      (AnimationStreamWriter.new, some (.tooManyPoints c8Frame.points.length)) :=
  ⟨by rw [c8Frame_points_length]; norm_num,
    c8_too_many_points AnimationStreamWriter.new c8Frame 0 0
      (by rw [c8Frame_points_length]; norm_num)⟩

/-! Claim C9: every exit path writes the terminal header exactly once. -/

/-- Frame writes never change the finalized flag. -/
theorem write_frame_ext_finalized (w : AnimationStreamWriter) (frame : Frame)
    (number total_frames : Nat) :
    ((w.write_frame_ext frame number total_frames).1).finalized = w.finalized := by
  rw [AnimationStreamWriter.write_frame_ext]
  split <;> rfl

/-- A writer that has only performed frame writes since creation keeps the
finalized flag it started with. -/
theorem foldl_apply_frame_finalized (ops : List (Frame × Nat × Nat))
    (w : AnimationStreamWriter) :
    (ops.foldl apply_frame w).finalized = w.finalized := by
  induction ops generalizing w with
  | nil => rfl
  | cons op rest ih =>
    rw [List.foldl_cons, ih, apply_frame, write_frame_ext_finalized]

/-- C9: after any sequence of frame writes on a fresh stream writer, both exit
paths — explicit `finalize` (followed by the drop of the consumed writer) and
drop without a prior finalize — append exactly one terminal header to the byte
sink; that appended block is 32 bytes, decodes as a header, and has
record_count 0. -/
theorem c9_terminal_header_on_exit (ops : List (Frame × Nat × Nat)) :
    ((ops.foldl apply_frame AnimationStreamWriter.new).finalize.drop_writer).inner.sink =
      (ops.foldl apply_frame AnimationStreamWriter.new).inner.sink ++
        write_entry (.headerEntry (Header.new .trueColor2d none none 0 0 0 0)) ∧
    ((ops.foldl apply_frame AnimationStreamWriter.new).drop_writer).inner.sink =
      (ops.foldl apply_frame AnimationStreamWriter.new).inner.sink ++
        write_entry (.headerEntry (Header.new .trueColor2d none none 0 0 0 0)) ∧
    (write_entry (.headerEntry (Header.new .trueColor2d none none 0 0 0 0))).length = 32 ∧
    read_header (write_entry (.headerEntry (Header.new .trueColor2d none none 0 0 0 0))) =
      .ok (Header.new .trueColor2d none none 0 0 0 0) ∧
    (Header.new .trueColor2d none none 0 0 0 0).record_count = 0 := by
  have hfin : (ops.foldl apply_frame AnimationStreamWriter.new).finalized = false :=
    foldl_apply_frame_finalized ops AnimationStreamWriter.new
  refine ⟨?_, ?_, by decide, by decide, rfl⟩
  · rw [AnimationStreamWriter.finalize, AnimationStreamWriter.drop_writer]
    rfl
  · rw [AnimationStreamWriter.drop_writer, hfin]
    rfl

/-! Claim C6: record round trips through the writer. -/

/-- Decoding a single 8-byte indexed-3D slice. -/
theorem idx3d_read_bytes_single (b0 b1 b2 b3 b4 b5 b6 b7 : Nat) :
    IndexedPoint3d.read_bytes [b0, b1, b2, b3, b4, b5, b6, b7] =
      .ok [{ x := read_i16 b0 b1, y := read_i16 b2 b3, z := read_i16 b4 b5,
             status_code := b6, color_index := b7 }] := by
  rw [IndexedPoint3d.read_bytes]
  norm_num [INDEXED_3D_DATA_SIZE, List.range_succ, List.range_zero, List.getD]

/-- Decoding a single 6-byte indexed-2D slice. -/
theorem idx2d_read_bytes_single (b0 b1 b2 b3 b4 b5 : Nat) :
    IndexedPoint2d.read_bytes [b0, b1, b2, b3, b4, b5] =
      .ok [{ x := read_i16 b0 b1, y := read_i16 b2 b3,
             status_code := b4, color_index := b5 }] := by
  rw [IndexedPoint2d.read_bytes]
  norm_num [INDEXED_2D_DATA_SIZE, List.range_succ, List.range_zero, List.getD]

/-- Decoding a single 3-byte color palette slice. -/
theorem palette_read_bytes_single (b0 b1 b2 : Nat) :
    ColorPalette.read_bytes [b0, b1, b2] =
      .ok [{ r := b0, g := b1, b := b2 }] := by
  rw [ColorPalette.read_bytes]
  norm_num [COLOR_PALETTE_SIZE, List.range_succ, List.range_zero, List.getD]

/-- Decoding a single 8-byte true-color-2D slice. -/
theorem tc2d_read_bytes_single (b0 b1 b2 b3 b4 b5 b6 b7 : Nat) :
    TrueColorPoint2d.read_bytes [b0, b1, b2, b3, b4, b5, b6, b7] =
      .ok [{ x := read_i16 b0 b1, y := read_i16 b2 b3,
             status_code := b4, b := b5, g := b6, r := b7 }] := by
  rw [TrueColorPoint2d.read_bytes]
  norm_num [TRUE_COLOR_2D_DATA_SIZE, List.range_succ, List.range_zero, List.getD]

/-- Decoding a single 10-byte true-color-3D slice. -/
theorem tc3d_read_bytes_single (b0 b1 b2 b3 b4 b5 b6 b7 b8 b9 : Nat) :
    TrueColorPoint3d.read_bytes [b0, b1, b2, b3, b4, b5, b6, b7, b8, b9] =
      .ok [{ x := read_i16 b0 b1, y := read_i16 b2 b3, z := read_i16 b4 b5,
             status_code := b6, b := b7, g := b8, r := b9 }] := by
  rw [TrueColorPoint3d.read_bytes]
  norm_num [TRUE_COLOR_3D_DATA_SIZE, List.range_succ, List.range_zero, List.getD]

/-- The byte slice a fresh `IldaWriter` emits for an indexed-3D point. -/
theorem write_sink_idx3d (p : IndexedPoint3d) :
    ((IldaWriter.mk []).write (.idxPoint3dEntry p)).sink =
      [(i16_as_u16 p.x >>> 8) % 256, i16_as_u16 p.x &&& 0xFF,
       (i16_as_u16 p.y >>> 8) % 256, i16_as_u16 p.y &&& 0xFF,
       (i16_as_u16 p.z >>> 8) % 256, i16_as_u16 p.z &&& 0xFF,
       p.status_code, p.color_index] := rfl

/-- The byte slice a fresh `IldaWriter` emits for an indexed-2D point. -/
theorem write_sink_idx2d (p : IndexedPoint2d) :
    ((IldaWriter.mk []).write (.idxPoint2dEntry p)).sink =
      [(i16_as_u16 p.x >>> 8) % 256, i16_as_u16 p.x &&& 0xFF,
       (i16_as_u16 p.y >>> 8) % 256, i16_as_u16 p.y &&& 0xFF,
       p.status_code, p.color_index] := rfl

/-- The byte slice a fresh `IldaWriter` emits for a color palette entry. -/
theorem write_sink_palette (c : ColorPalette) :
    ((IldaWriter.mk []).write (.colorPaletteEntry c)).sink =
      [c.r, c.g, c.b] := rfl

/-- The byte slice a fresh `IldaWriter` emits for a true-color-2D point. -/
theorem write_sink_tc2d (p : TrueColorPoint2d) :
    ((IldaWriter.mk []).write (.tcPoint2dEntry p)).sink =
      [(i16_as_u16 p.x >>> 8) % 256, i16_as_u16 p.x &&& 0xFF,
       (i16_as_u16 p.y >>> 8) % 256, i16_as_u16 p.y &&& 0xFF,
       p.status_code, p.b, p.g, p.r] := rfl

/-- The byte slice a fresh `IldaWriter` emits for a true-color-3D point. -/
theorem write_sink_tc3d (p : TrueColorPoint3d) :
    ((IldaWriter.mk []).write (.tcPoint3dEntry p)).sink =
      [(i16_as_u16 p.x >>> 8) % 256, i16_as_u16 p.x &&& 0xFF,
       (i16_as_u16 p.y >>> 8) % 256, i16_as_u16 p.y &&& 0xFF,
       (i16_as_u16 p.z >>> 8) % 256, i16_as_u16 p.z &&& 0xFF,
       p.status_code, p.b, p.g, p.r] := rfl

/-- C6: for every record value of each of the five supported record types
(with coordinates in the i16 range, as the Rust types guarantee), encoding it
through `IldaWriter::write` on a fresh sink and decoding the written slice
with the same type's `read_bytes` yields exactly the one original record. -/
theorem c6_record_roundtrip (p3 : IndexedPoint3d) (p2 : IndexedPoint2d)
    (c : ColorPalette) (t2 : TrueColorPoint2d) (t3 : TrueColorPoint3d)
    (hp3x : i16_range p3.x) (hp3y : i16_range p3.y) (hp3z : i16_range p3.z)
    (hp2x : i16_range p2.x) (hp2y : i16_range p2.y)
    (ht2x : i16_range t2.x) (ht2y : i16_range t2.y)
    (ht3x : i16_range t3.x) (ht3y : i16_range t3.y) (ht3z : i16_range t3.z) :
    IndexedPoint3d.read_bytes
        ((IldaWriter.mk []).write (.idxPoint3dEntry p3)).sink = .ok [p3] ∧
    IndexedPoint2d.read_bytes
        ((IldaWriter.mk []).write (.idxPoint2dEntry p2)).sink = .ok [p2] ∧
    ColorPalette.read_bytes
        ((IldaWriter.mk []).write (.colorPaletteEntry c)).sink = .ok [c] ∧
    TrueColorPoint2d.read_bytes
        ((IldaWriter.mk []).write (.tcPoint2dEntry t2)).sink = .ok [t2] ∧
    TrueColorPoint3d.read_bytes
        ((IldaWriter.mk []).write (.tcPoint3dEntry t3)).sink = .ok [t3] := by
  refine ⟨?_, ?_, ?_, ?_, ?_⟩
  · obtain ⟨x, y, z, s, ci⟩ := p3
    obtain ⟨hx1, hx2⟩ := hp3x
    obtain ⟨hy1, hy2⟩ := hp3y
    obtain ⟨hz1, hz2⟩ := hp3z
    rw [write_sink_idx3d, idx3d_read_bytes_single]
    simp only [Except.ok.injEq, List.cons.injEq, and_true,
      IndexedPoint3d.mk.injEq]
    exact ⟨read_i16_roundtrip x hx1 hx2, read_i16_roundtrip y hy1 hy2,
      read_i16_roundtrip z hz1 hz2⟩
  · obtain ⟨x, y, s, ci⟩ := p2
    obtain ⟨hx1, hx2⟩ := hp2x
    obtain ⟨hy1, hy2⟩ := hp2y
    rw [write_sink_idx2d, idx2d_read_bytes_single]
    simp only [Except.ok.injEq, List.cons.injEq, and_true,
      IndexedPoint2d.mk.injEq]
    exact ⟨read_i16_roundtrip x hx1 hx2, read_i16_roundtrip y hy1 hy2⟩
  · obtain ⟨r, g, b⟩ := c
    rw [write_sink_palette, palette_read_bytes_single]
  · obtain ⟨x, y, s, b, g, r⟩ := t2
    obtain ⟨hx1, hx2⟩ := ht2x
    obtain ⟨hy1, hy2⟩ := ht2y
    rw [write_sink_tc2d, tc2d_read_bytes_single]
    simp only [Except.ok.injEq, List.cons.injEq, and_true,
      TrueColorPoint2d.mk.injEq]
    exact ⟨read_i16_roundtrip x hx1 hx2, read_i16_roundtrip y hy1 hy2⟩
  · obtain ⟨x, y, z, s, b, g, r⟩ := t3
    obtain ⟨hx1, hx2⟩ := ht3x
    obtain ⟨hy1, hy2⟩ := ht3y
    obtain ⟨hz1, hz2⟩ := ht3z
    rw [write_sink_tc3d, tc3d_read_bytes_single]
    simp only [Except.ok.injEq, List.cons.injEq, and_true,
      TrueColorPoint3d.mk.injEq]
    exact ⟨read_i16_roundtrip x hx1 hx2, read_i16_roundtrip y hy1 hy2,
      read_i16_roundtrip z hz1 hz2⟩

/-- C6 witness: the round-trip theorem applied to one concrete record of each
of the five types. -/
theorem c6_record_roundtrip_witness :
    (i16_range c6P3.x ∧ i16_range c6P3.y ∧ i16_range c6P3.z ∧
     i16_range c6P2.x ∧ i16_range c6P2.y ∧
     i16_range c6T2.x ∧ i16_range c6T2.y ∧
     i16_range c6T3.x ∧ i16_range c6T3.y ∧ i16_range c6T3.z) ∧
    (IndexedPoint3d.read_bytes
        ((IldaWriter.mk []).write (.idxPoint3dEntry c6P3)).sink = .ok [c6P3] ∧
     IndexedPoint2d.read_bytes
        ((IldaWriter.mk []).write (.idxPoint2dEntry c6P2)).sink = .ok [c6P2] ∧
     ColorPalette.read_bytes
        ((IldaWriter.mk []).write (.colorPaletteEntry c6C)).sink = .ok [c6C] ∧
     TrueColorPoint2d.read_bytes
        ((IldaWriter.mk []).write (.tcPoint2dEntry c6T2)).sink = .ok [c6T2] ∧
     TrueColorPoint3d.read_bytes
        ((IldaWriter.mk []).write (.tcPoint3dEntry c6T3)).sink = .ok [c6T3]) :=
  ⟨⟨by decide, by decide, by decide, by decide, by decide, by decide,
    by decide, by decide, by decide, by decide⟩,
   c6_record_roundtrip c6P3 c6P2 c6C c6T2 c6T3 (by decide) (by decide)
     (by decide) (by decide) (by decide) (by decide) (by decide) (by decide)
     (by decide) (by decide)⟩

/-! Fuel sufficiency: the fuel `read_bytes` supplies never runs out, so the
fuel-based embedding of the decode loop is total in the same sense as the
Rust loop. -/

/-- With fuel at least the remaining byte count plus the state bonus, the
decode loop never exhausts its fuel; in particular the loop itself always
terminates. -/
theorem run_fuel_sufficient (fuel : Nat) (bytes : List Nat) (next : NextRead)
    (frames : Nat) (h : bytes.length + fuelBonus next ≤ fuel) :
    run fuel bytes next frames ≠ .outOfFuel := by
  induction fuel generalizing bytes next frames with
  | zero => cases next <;> simp [fuelBonus] at h
  | succ fuel ih =>
    cases next with
    | header =>
      simp only [fuelBonus] at h
      rw [run]
      split
      · simp
      · rename_i hbne
        split
        · simp
        · rename_i hlen
          split
          · simp
          · rename_i hd hrh
            split
            · simp
            · rename_i f hfc
              split
              · simp
              · have hfb : fuelBonus (nextOfFormat f) = 2 := by cases f <;> rfl
                refine ih (bytes.drop HEADER_SIZE) (nextOfFormat f)
                  hd.record_count ?_
                simp only [List.length_drop, hfb]
                rw [HEADER_SIZE] at hlen
                rw [HEADER_SIZE]
                omega
    | i3d =>
      simp only [fuelBonus] at h
      rw [run]
      split
      · simp
      · split
        · simp
        · split
          · simp
          · split
            · simp
            · refine ih (bytes.drop (INDEXED_3D_DATA_SIZE * frames))
                .header frames ?_
              simp only [List.length_drop, fuelBonus]
              omega
    | i2d =>
      simp only [fuelBonus] at h
      rw [run]
      split
      · simp
      · split
        · simp
        · split
          · simp
          · split
            · simp
            · refine ih (bytes.drop (INDEXED_2D_DATA_SIZE * frames))
                .header frames ?_
              simp only [List.length_drop, fuelBonus]
              omega
    | color =>
      simp only [fuelBonus] at h
      rw [run]
      split
      · simp
      · split
        · simp
        · split
          · simp
          · split
            · simp
            · refine ih (bytes.drop (COLOR_PALETTE_SIZE * frames))
                .header frames ?_
              simp only [List.length_drop, fuelBonus]
              omega
    | tc3d =>
      simp only [fuelBonus] at h
      rw [run]
      split
      · simp
      · split
        · simp
        · split
          · simp
          · split
            · simp
            · refine ih (bytes.drop (TRUE_COLOR_3D_DATA_SIZE * frames))
                .header frames ?_
              simp only [List.length_drop, fuelBonus]
              omega
    | tc2d =>
      simp only [fuelBonus] at h
      rw [run]
      split
      · simp
      · split
        · simp
        · split
          · simp
          · split
            · simp
            · refine ih (bytes.drop (TRUE_COLOR_2D_DATA_SIZE * frames))
                .header frames ?_
              simp only [List.length_drop, fuelBonus]
              omega

/-- Decoding stops with a clean empty result when no bytes remain, whatever
the loop state. -/
theorem run_nil (fuel : Nat) (next : NextRead) (frames : Nat) :
    run fuel [] next frames = .ok [] := by
  cases fuel <;> cases next <;> rfl

/-! Claim C2: zero-record-count headers. -/

/-- C2 counterexample: a zero-record-count header carrying the unrecognized
format code 3 does make `read_bytes` fail with an invalid-file error, contrary
to the claim that such a header terminates decoding without error. -/
theorem c2_zero_count_unknown_format_fails :
    (read_header c2Bytes).toOption.map (fun h => h.record_count) = some 0 ∧
    read_bytes c2Bytes = .err (.invalidFile "Bad format.") := by
  decide

/-- C2 (amended): a zero-record-count header terminates decoding only when it
is the last data of the input and carries a recognized format code; then
`read_bytes` emits exactly the header entry and succeeds. -/
theorem c2_zero_count_terminal_at_end (b : List Nat) (f : Format)
    (hlen : b.length = 32) (hmagic : b.take 4 = ILDA_HEADER)
    (hfmt : formatOfCode (b.getD 7 0) = some f)
    (h24 : b.getD 24 0 = 0) (h25 : b.getD 25 0 = 0) :
    ∃ h, read_header b = .ok h ∧ h.record_count = 0 ∧
      read_bytes b = .ok [.headerEntry h] := by
  have hne : ¬ b = [] := by
    intro e
    rw [e] at hlen
    exact absurd hlen (by decide)
  have hcond : ¬ (b.length ≠ 32 ∨ b.take 4 ≠ ILDA_HEADER) := by
    push_neg
    exact ⟨hlen, hmagic⟩
  have hhdr : read_header b = .ok
      { reserved := 0
        format_code := b.getD 7 0
        name := read_name ((b.drop 8).take 8)
        company_name := read_name ((b.drop 16).take 8)
        record_count := read_u16 (b.getD 24 0) (b.getD 25 0)
        number := read_u16 (b.getD 26 0) (b.getD 27 0)
        total_frames := read_u16 (b.getD 28 0) (b.getD 29 0)
        projector_number := b.getD 31 0
        reserved_2 := 0 } := by
    rw [read_header, if_neg hcond]
  have hrc : read_u16 (b.getD 24 0) (b.getD 25 0) = 0 := by
    rw [h24, h25]
    decide
  refine ⟨_, hhdr, hrc, ?_⟩
  have hnotshort : ¬ b.length < 32 := by omega
  rw [read_bytes, if_neg hnotshort, hlen]
  rw [show (32 + 2 : Nat) = 33 + 1 from rfl]
  rw [run, if_neg hne,
    if_neg (show ¬ b.length < HEADER_SIZE by rw [HEADER_SIZE]; omega)]
  have htake : b.take HEADER_SIZE = b :=
    List.take_of_length_le (by rw [hlen, HEADER_SIZE])
  have hdrop : b.drop HEADER_SIZE = [] :=
    List.drop_eq_nil_of_le (by rw [hlen, HEADER_SIZE])
  simp only [htake, hhdr, hfmt, hdrop, run_nil]

/-- C2 witness: the amended theorem applied to a concrete terminal header. -/
theorem c2_zero_count_terminal_at_end_witness :
    (c2OkBytes.length = 32 ∧ c2OkBytes.take 4 = ILDA_HEADER ∧
     formatOfCode (c2OkBytes.getD 7 0) = some c2OkFormat ∧
     c2OkBytes.getD 24 0 = 0 ∧ c2OkBytes.getD 25 0 = 0) ∧
    (∃ h, read_header c2OkBytes = .ok h ∧ h.record_count = 0 ∧
      read_bytes c2OkBytes = .ok [.headerEntry h]) :=
  ⟨⟨by decide, by decide, by decide, by decide, by decide⟩,
   c2_zero_count_terminal_at_end c2OkBytes c2OkFormat (by decide) (by decide)
     (by decide) (by decide) (by decide)⟩

end Ilda
